import Mathlib

/-!
Shallow embedding of the client-side free-tier quota, view-state router and
generation handler of the React Native app (source file `part_003`):
the `useFreeTier` hook (`loadUsage`, `incrementUsage`, `hasUsesLeft`,
`getRemainingUses`), the `App` component's view switch (`renderCurrentView`)
and `FreeGenerateScreen.handleGenerate`.

JavaScript numbers that can be `NaN` are modelled by `JSNumber`; stored
strings are lists of characters; `parseInt` is modelled by `jsParseInt`
(whitespace skip, optional sign, longest decimal-digit run, `NaN` when no
digit is found).  `localStorage` is modelled by `Storage`: it may be wholly
absent (`typeof localStorage === 'undefined'`), and an available store
carries the value under the key `free_usage_count` plus a flag saying
whether `setItem` throws.  All functions are total: the source wraps every
storage access in `try/catch` and swallows the error, so no exception
escapes; the model's return types reflect that.
-/

namespace BananaStudio

/-- A JavaScript number restricted to the values that arise here: an integer
or `NaN`. -/
inductive JSNumber where
  | nan : JSNumber
  | int : Int → JSNumber
deriving DecidableEq, Repr

/-- Decimal digit character for a digit value, `digitToChar 3 = '3'`. -/
def digitToChar (d : Nat) : Char := Char.ofNat (48 + d)

/-- Whether a character is a decimal digit `'0'..'9'`. -/
def isDigitChar (c : Char) : Bool := decide (48 ≤ c.toNat) && decide (c.toNat ≤ 57)

/-- Whether a character is whitespace skipped by JavaScript `parseInt`. -/
def isSpaceChar (c : Char) : Bool := c == ' ' || c == '\t' || c == '\n' || c == '\r'

/-- Value of a big-endian list of decimal digit characters. -/
def ofDigitChars (cs : List Char) : Nat :=
  cs.foldl (fun a c => a * 10 + (c.toNat - 48)) 0

/-- Decimal representation of a natural number, as JavaScript
`Number.prototype.toString` produces for non-negative integers. -/
def natToDigitChars (n : Nat) : List Char :=
  if n = 0 then ['0'] else (Nat.digits 10 n).reverse.map digitToChar

/-- JavaScript `toString` of an integer-valued number. -/
def intToJSChars (i : Int) : List Char :=
  if i < 0 then '-' :: natToDigitChars i.natAbs else natToDigitChars i.natAbs

/-- Longest leading run of decimal digits, `none` when there is none
(JavaScript `parseInt` yields `NaN` then). -/
def parseLeadingNat (s : List Char) : Option Nat :=
  let ds := s.takeWhile isDigitChar
  if ds.isEmpty then none else some (ofDigitChars ds)

/-- Sign handling of `parseInt` after whitespace has been skipped: an
optional `-` or `+`, then the longest run of decimal digits; `NaN` when no
digit follows. -/
def jsParseIntCore : List Char → JSNumber
  | [] => .nan
  | c :: rest =>
    if c = '-' then
      match parseLeadingNat rest with
      | some n => .int (-(n : Int))
      | none => .nan
    else if c = '+' then
      match parseLeadingNat rest with
      | some n => .int (n : Int)
      | none => .nan
    else
      match parseLeadingNat (c :: rest) with
      | some n => .int (n : Int)
      | none => .nan

/-- Model of JavaScript `parseInt(s)` (radix 10): skip whitespace, optional
sign, then the longest run of decimal digits; `NaN` when no digit follows. -/
def jsParseInt (s : List Char) : JSNumber := jsParseIntCore (s.dropWhile isSpaceChar)

/-- String form of a natural number. -/
def natToString (n : Nat) : String := String.mk (natToDigitChars n)

/-- String form of an integer-valued JavaScript number. -/
def intToString (i : Int) : String := String.mk (intToJSChars i)

/-- Model of the `localStorage` the hook sees: either wholly unavailable
(`typeof localStorage === 'undefined'`), or available with the current value
stored under the key `free_usage_count` (`none` when the key is absent, so
`getItem` returns `null`) and a flag saying whether `setItem` throws. -/
inductive Storage where
  | unavailable : Storage
  | available : Option (List Char) → Bool → Storage
deriving DecidableEq, Repr

/-- Model of `setItem('free_usage_count', v)`: raises iff the store's
write-failure flag is set; on an unavailable store the caller's `typeof`
guard means this is never reached, modelled as a no-op. -/
def setItem (st : Storage) (v : List Char) : Except String Storage :=
  match st with
  | .unavailable => .ok .unavailable
  | .available _ writeFails =>
    if writeFails then .error "Error saving usage" else .ok (.available (some v) writeFails)

/-- The free-generation cap of the `useFreeTier` hook (`FREE_LIMIT = 100`). -/
def FREE_LIMIT : Int := 100

/-- Source: `const hasUsesLeft = () => usageCount < FREE_LIMIT;` (pure). -/
def hasUsesLeft (usageCount : Int) : Bool := decide (usageCount < FREE_LIMIT)

/-- Source: `const getRemainingUses = () => Math.max(0, FREE_LIMIT - usageCount);`
(pure). -/
def getRemainingUses (usageCount : Int) : Int := max 0 (FREE_LIMIT - usageCount)

/-- Model of `loadUsage`: the resulting in-memory `usageCount` after the
load effect.  Source: if `localStorage` is undefined the guarded block is
skipped and the counter keeps its initial `useState(0)` value; otherwise
`const stored = localStorage.getItem('free_usage_count');
setUsageCount(stored ? parseInt(stored) : 0);` — `null` and the empty
string are falsy, any other string goes through `parseInt` (which can be
`NaN`).  Errors are caught and logged, so the function is total and never
raises, in particular not for a missing key. -/
def loadUsage (st : Storage) : JSNumber :=
  match st with
  | .unavailable => .int 0
  | .available stored _ =>
    match stored with
    | none => .int 0
    | some s => if s.isEmpty then .int 0 else jsParseInt s

/-- Result of one `incrementUsage()` call: the value of the returned
promise, the in-memory `usageCount` afterwards, and the storage
afterwards. -/
structure IncResult where
  returned : Int
  usageCount : Int
  storage : Storage
deriving DecidableEq, Repr

/-- Model of `incrementUsage`.  Source: `const newCount = usageCount + 1;
setUsageCount(newCount); try { if (typeof localStorage !== 'undefined')
localStorage.setItem('free_usage_count', newCount.toString()); } catch
(error) { console.log('Error saving usage:', error); } return newCount;` —
the write error is swallowed by the `catch`, so the function always returns
`newCount` and the in-memory counter always advances. -/
def incrementUsage (usageCount : Int) (st : Storage) : IncResult :=
  let newCount := usageCount + 1
  let st2 :=
    match st with
    | .unavailable => st
    | .available _ _ =>
      match setItem st (intToJSChars newCount) with
      | .ok s => s
      | .error _ => st
  { returned := newCount, usageCount := newCount, storage := st2 }

/-- N successive `incrementUsage()` calls from a starting in-memory counter
and storage: final counter, final storage, and the list of values returned
by the calls in order. -/
def incRun (usageCount : Int) (st : Storage) : Nat → Int × Storage × List Int
  | 0 => (usageCount, st, [])
  | n + 1 =>
    let r := incrementUsage usageCount st
    let rest := incRun r.usageCount r.storage n
    (rest.1, rest.2.1, r.returned :: rest.2.2)

/-- The unauthenticated view states of the `App` component's `appState`
string (`renderCurrentView` switch). -/
inductive AppState where
  | welcome : AppState
  | generate : AppState
  | signup_prompt : AppState
  | auth : AppState
deriving DecidableEq, Repr

/-- User-triggered events wired in `renderCurrentView` and the screens it
renders. -/
inductive UIEvent where
  | getStarted : UIEvent
  | backFromGenerate : UIEvent
  | signupPrompt : UIEvent
  | createAccount : UIEvent
  | continueFree : UIEvent
  | backFromAuth : UIEvent
deriving DecidableEq, Repr

/-- The router, read off `renderCurrentView`:
`welcome` offers `onGetStarted := setAppState('generate')`;
`generate` offers `onBack := setAppState('welcome')` and
`onSignupPrompt := handleSignupPrompt` (sets `signup_prompt`);
`signup_prompt` offers `onSignup := handleSignup` (sets `auth`, the
"Create Account" button) and `onBack := setAppState('generate')` (the
"Continue with free tier" button);
`auth` offers `onBack := setAppState('generate')`.
An event not offered on the current screen cannot fire and leaves the
state unchanged. -/
def routerStep : AppState → UIEvent → AppState
  | .welcome, .getStarted => .generate
  | .generate, .backFromGenerate => .welcome
  | .generate, .signupPrompt => .signup_prompt
  | .signup_prompt, .createAccount => .auth
  | .signup_prompt, .continueFree => .generate
  | .auth, .backFromAuth => .generate
  | s, _ => s

/-- A curated prompt record as fetched from `/api/prompts`. -/
structure CuratedPrompt where
  id : Nat
  title : String
  description : String
  prompt : String
  category : String
deriving DecidableEq, Repr

/-- JavaScript truthiness of `selectedPromptId : number | null`
(`null` and `0` are falsy). -/
def truthyNat : Option Nat → Bool
  | none => false
  | some n => n != 0

/-- JavaScript truthiness of `referenceImage : string | null`
(`null` and the empty string are falsy). -/
def truthyStr : Option String → Bool
  | none => false
  | some s => s != ""

/-- Outcome of the `fetch` to `/api/generate-with-prompt`: a 2xx response
with a `generated_image` payload, a non-2xx status whose error body parsed
to an object with an optional `detail` string (`none` also covers an
unparsable body via `.catch(() => ({}))`), or a transport error thrown as
an `Error` with a message. -/
inductive FetchOutcome where
  | success : String → FetchOutcome
  | httpError : Nat → Option String → FetchOutcome
  | transportError : String → FetchOutcome
deriving DecidableEq, Repr

/-- JavaScript `a || b` for a possibly-undefined string `a`
(`undefined` and `""` are falsy). -/
def jsOr (a : Option String) (b : String) : String :=
  match a with
  | some s => if s = "" then b else s
  | none => b

/-- Observable outcome of one `handleGenerate()` run: the alert shown
(title, message), whether the generation endpoint was contacted, whether
`onSignupPrompt()` was invoked, whether `incrementUsage()` ran, the
in-memory `usageCount` and storage afterwards, and the generated image
set. -/
structure GenOutcome where
  alert : Option (String × String)
  networkCalled : Bool
  routedToSignup : Bool
  incremented : Bool
  usageCountAfter : Int
  storageAfter : Storage
  generatedImage : Option String
deriving DecidableEq, Repr

/-- Model of `FreeGenerateScreen.handleGenerate`, in source order:
`if (!selectedPromptId)` → alert and return; `if (!referenceImage)` →
alert and return; `if (!freeTier.hasUsesLeft())` → `onSignupPrompt()` and
return; then `curatedPrompts.find(p => p.id === selectedPromptId)` (a miss
throws `'Selected prompt not found'`, caught below); then the `fetch` —
`!response.ok` throws `errorData.detail || 'HTTP <status>: Failed to
generate image'`; on success the image is set, `incrementUsage()` runs and
the success alert shows; every caught error shows
`Alert.alert('Generation Failed', errorMessage)` with the error's
message. -/
def handleGenerate (selectedPromptId : Option Nat) (referenceImage : Option String)
    (usageCount : Int) (st : Storage) (curatedPrompts : List CuratedPrompt)
    (fetchResult : FetchOutcome) : GenOutcome :=
  if truthyNat selectedPromptId = false then
    { alert := some ("Error", "Please select a prompt style"),
      networkCalled := false, routedToSignup := false, incremented := false,
      usageCountAfter := usageCount, storageAfter := st, generatedImage := none }
  else if truthyStr referenceImage = false then
    { alert := some ("Error",
        "Please upload or take a reference photo first. All curated prompts require a reference image."),
      networkCalled := false, routedToSignup := false, incremented := false,
      usageCountAfter := usageCount, storageAfter := st, generatedImage := none }
  else if hasUsesLeft usageCount = false then
    { alert := none,
      networkCalled := false, routedToSignup := true, incremented := false,
      usageCountAfter := usageCount, storageAfter := st, generatedImage := none }
  else
    match curatedPrompts.find? (fun p => p.id == selectedPromptId.getD 0) with
    | none =>
      { alert := some ("Generation Failed", "Selected prompt not found"),
        networkCalled := false, routedToSignup := false, incremented := false,
        usageCountAfter := usageCount, storageAfter := st, generatedImage := none }
    | some selectedPrompt =>
      match fetchResult with
      | .success generated =>
        let inc := incrementUsage usageCount st
        { alert := some ("Success!",
            "AI image generated with \"" ++ selectedPrompt.title ++
            "\" style! You have " ++ intToString (getRemainingUses usageCount - 1) ++
            " free generations remaining."),
          networkCalled := true, routedToSignup := false, incremented := true,
          usageCountAfter := inc.usageCount, storageAfter := inc.storage,
          generatedImage := some ("data:image/png;base64," ++ generated) }
      | .httpError status detail =>
        { alert := some ("Generation Failed",
            jsOr detail ("HTTP " ++ natToString status ++ ": Failed to generate image")),
          networkCalled := true, routedToSignup := false, incremented := false,
          usageCountAfter := usageCount, storageAfter := st, generatedImage := none }
      | .transportError msg =>
        { alert := some ("Generation Failed", msg),
          networkCalled := true, routedToSignup := false, incremented := false,
          usageCountAfter := usageCount, storageAfter := st, generatedImage := none }

/-- The `appState` after a `handleGenerate` run started on the `generate`
screen: the handler's only routing effect is `onSignupPrompt()`, which
fires the router's `signupPrompt` event. -/
def appStateAfterGenerate (out : GenOutcome) : AppState :=
  if out.routedToSignup then routerStep .generate .signupPrompt else .generate

/-! Helper lemmas: the decimal print/parse round trip used by the
persistence claims. -/

lemma digitToChar_toNat {d : Nat} (h : d < 10) : (digitToChar d).toNat = 48 + d := by
  interval_cases d <;> decide

lemma isDigitChar_digitToChar {d : Nat} (h : d < 10) : isDigitChar (digitToChar d) = true := by
  interval_cases d <;> decide

lemma isSpaceChar_eq_false_of_digit {c : Char} (h : isDigitChar c = true) :
    isSpaceChar c = false := by
  by_contra hs
  rw [Bool.not_eq_false] at hs
  simp only [isSpaceChar, Bool.or_eq_true, beq_iff_eq] at hs
  rcases hs with ((rfl | rfl) | rfl) | rfl <;> exact absurd h (by decide)

lemma digit_ne_minus {c : Char} (h : isDigitChar c = true) : c ≠ '-' := by
  rintro rfl; exact absurd h (by decide)

lemma digit_ne_plus {c : Char} (h : isDigitChar c = true) : c ≠ '+' := by
  rintro rfl; exact absurd h (by decide)

lemma dropWhile_isSpace_of_digits {l : List Char} (h : ∀ c ∈ l, isDigitChar c = true) :
    l.dropWhile isSpaceChar = l := by
  cases l with
  | nil => rfl
  | cons c t =>
    rw [List.dropWhile_cons, isSpaceChar_eq_false_of_digit (h c (by simp))]
    simp

lemma takeWhile_eq_self_of_all {p : Char → Bool} :
    ∀ l : List Char, (∀ c ∈ l, p c = true) → l.takeWhile p = l
  | [], _ => rfl
  | c :: t, h => by
    rw [List.takeWhile_cons, h c (by simp)]
    simp only [if_true]
    rw [takeWhile_eq_self_of_all t (fun x hx => h x (by simp [hx]))]

lemma foldl_digitToChar_map :
    ∀ (l : List Nat), (∀ d ∈ l, d < 10) → ∀ acc : Nat,
      (l.map digitToChar).foldl (fun a c => a * 10 + (c.toNat - 48)) acc =
        l.foldl (fun a d => a * 10 + d) acc
  | [], _, _ => rfl
  | d :: t, h, acc => by
    rw [List.map_cons, List.foldl_cons, List.foldl_cons,
      digitToChar_toNat (h d (by simp)), Nat.add_sub_cancel_left]
    exact foldl_digitToChar_map t (fun x hx => h x (by simp [hx])) _

lemma foldl_base10 :
    ∀ (l : List Nat) (acc : Nat),
      l.foldl (fun a d => a * 10 + d) acc = acc * 10 ^ l.length + Nat.ofDigits 10 l.reverse
  | [], acc => by simp [Nat.ofDigits]
  | d :: t, acc => by
    rw [List.foldl_cons, foldl_base10 t, List.reverse_cons, Nat.ofDigits_append,
      Nat.ofDigits_singleton, List.length_reverse, List.length_cons]
    ring

lemma ofDigitChars_natToDigitChars (n : Nat) : ofDigitChars (natToDigitChars n) = n := by
  by_cases h0 : n = 0
  · subst h0; decide
  · have hd : ∀ d ∈ (Nat.digits 10 n).reverse, d < 10 := by
      intro d hdm
      exact Nat.digits_lt_base (by norm_num) (List.mem_reverse.mp hdm)
    rw [natToDigitChars, if_neg h0, ofDigitChars, foldl_digitToChar_map _ hd, foldl_base10,
      List.reverse_reverse, Nat.ofDigits_digits]
    simp

lemma natToDigitChars_ne_nil (n : Nat) : natToDigitChars n ≠ [] := by
  by_cases h0 : n = 0
  · subst h0; decide
  · rw [natToDigitChars, if_neg h0]
    simp [Nat.digits_ne_nil_iff_ne_zero.mpr h0]

lemma natToDigitChars_all_digits (n : Nat) :
    ∀ c ∈ natToDigitChars n, isDigitChar c = true := by
  intro c hc
  by_cases h0 : n = 0
  · subst h0
    have h00 : natToDigitChars 0 = ['0'] := rfl
    rw [h00, List.mem_singleton] at hc
    subst hc; decide
  · rw [natToDigitChars, if_neg h0] at hc
    obtain ⟨d, hdm, rfl⟩ := List.mem_map.mp hc
    exact isDigitChar_digitToChar (Nat.digits_lt_base (by norm_num) (List.mem_reverse.mp hdm))

lemma parseLeadingNat_natToDigitChars (n : Nat) :
    parseLeadingNat (natToDigitChars n) = some n := by
  rw [parseLeadingNat]
  simp only [takeWhile_eq_self_of_all _ (natToDigitChars_all_digits n)]
  rw [List.isEmpty_eq_false_iff_exists_mem.mpr]
  · simp [ofDigitChars_natToDigitChars]
  · obtain ⟨c, t, he⟩ := List.exists_cons_of_ne_nil (natToDigitChars_ne_nil n)
    exact ⟨c, by rw [he]; simp⟩

lemma jsParseInt_natToDigitChars (n : Nat) : jsParseInt (natToDigitChars n) = .int n := by
  obtain ⟨c, rest, he⟩ := List.exists_cons_of_ne_nil (natToDigitChars_ne_nil n)
  have hall := natToDigitChars_all_digits n
  have hc : isDigitChar c = true := hall c (by rw [he]; simp)
  rw [jsParseInt, dropWhile_isSpace_of_digits hall, he, jsParseIntCore,
    if_neg (digit_ne_minus hc), if_neg (digit_ne_plus hc), ← he,
    parseLeadingNat_natToDigitChars]

lemma jsParseInt_intToJSChars (i : Int) : jsParseInt (intToJSChars i) = .int i := by
  by_cases hneg : i < 0
  · have hd : isSpaceChar '-' = false := by decide
    rw [intToJSChars, if_pos hneg, jsParseInt, List.dropWhile_cons, hd]
    simp only [Bool.false_eq_true, if_false]
    rw [jsParseIntCore, if_pos rfl, parseLeadingNat_natToDigitChars]
    have habs : -((i.natAbs : Int)) = i := by omega
    exact congrArg JSNumber.int habs
  · rw [intToJSChars, if_neg hneg, jsParseInt_natToDigitChars,
      Int.natAbs_of_nonneg (by omega)]

lemma intToJSChars_ne_nil (i : Int) : intToJSChars i ≠ [] := by
  by_cases hneg : i < 0
  · rw [intToJSChars, if_pos hneg]; simp
  · rw [intToJSChars, if_neg hneg]; exact natToDigitChars_ne_nil _

lemma incrementUsage_usageCount (u : Int) (st : Storage) :
    (incrementUsage u st).usageCount = u + 1 := by
  cases st <;> rfl

lemma incrementUsage_returned (u : Int) (st : Storage) :
    (incrementUsage u st).returned = u + 1 := by
  cases st <;> rfl

/-- C1: for every starting value of the in-memory usage counter and every
storage, a sequence of N `incrementUsage()` calls leaves `usageCount` equal
to the starting value plus N, and the k-th call returns start + k + 1 — the
returned values are exactly the consecutive integers start+1, …, start+N,
so the counter never decreases and never skips a value. -/
theorem usage_counter_sequence (u : Int) (st : Storage) (N : Nat) :
    (incRun u st N).1 = u + N ∧
    (incRun u st N).2.2 = (List.range N).map (fun i : Nat => u + (i : Int) + 1) := by
  induction N generalizing u st with
  | zero => simp [incRun]
  | succ n ih =>
    obtain ⟨ih1, ih2⟩ := ih (u + 1) ((incrementUsage u st).storage)
    refine ⟨?_, ?_⟩
    · simp only [incRun, incrementUsage_usageCount]
      rw [ih1]
      push_cast
      ring
    · simp only [incRun, incrementUsage_usageCount, incrementUsage_returned]
      rw [ih2, List.range_succ_eq_map, List.map_cons, List.map_map]
      congr 1
      · push_cast; ring
      · refine List.map_congr_left ?_
        intro i _
        simp only [Function.comp_apply]
        push_cast
        ring

/-- C2 counterexample: on the `generate` screen with the quota exhausted
(`usageCount = 100`, `hasUsesLeft` false) but no prompt selected, an attempt
to generate does NOT transition to `signup_prompt` (the validation alert
fires first and the router stays put), so the claim as stated is false. -/
theorem quota_exhausted_attempt_cex :
    hasUsesLeft 100 = false ∧
    (handleGenerate none none 100 (.available none false) [] (.success "")).routedToSignup
      = false ∧
    (handleGenerate none none 100 (.available none false) [] (.success "")).networkCalled
      = false := by
  refine ⟨by decide, by decide, by decide⟩

/-- C2 amended: on the `generate` screen with `hasUsesLeft()` false, an
attempt to generate never issues a network request; it transitions the
router to `signup_prompt` exactly when the prompt id and the reference
image are both truthy, and otherwise leaves the router on `generate`. -/
theorem quota_exhausted_attempt (pid : Option Nat) (img : Option String) (u : Int)
    (st : Storage) (ps : List CuratedPrompt) (f : FetchOutcome)
    (h : hasUsesLeft u = false) :
    (handleGenerate pid img u st ps f).networkCalled = false ∧
    appStateAfterGenerate (handleGenerate pid img u st ps f) =
      (if truthyNat pid && truthyStr img then .signup_prompt else .generate) := by
  cases hb : truthyNat pid with
  | false => simp [handleGenerate, hb, appStateAfterGenerate, routerStep]
  | true =>
    cases hbi : truthyStr img with
    | false => simp [handleGenerate, hb, hbi, appStateAfterGenerate, routerStep]
    | true => simp [handleGenerate, hb, hbi, h, appStateAfterGenerate, routerStep]

/-- C2 amended, witness at `usageCount = 100` with a prompt and a reference
image present. -/
theorem quota_exhausted_attempt_witness :
    (handleGenerate (some 1) (some "img") 100 .unavailable [] (.success "")).networkCalled
      = false ∧
    appStateAfterGenerate (handleGenerate (some 1) (some "img") 100 .unavailable []
        (.success "")) =
      (if truthyNat (some 1) && truthyStr (some "img") then .signup_prompt else .generate) :=
  quota_exhausted_attempt (some 1) (some "img") 100 .unavailable [] (.success "")
    (by decide)

/-- C3: with a truthy prompt id and reference image, uses left and the
prompt found in the catalog: a non-2xx response whose body carries a
non-empty `detail` shows the alert ("Generation Failed", detail) and leaves
the counter unchanged with no increment; a non-2xx response without a
`detail` shows the generic fallback "HTTP status: Failed to generate
image"; a transport error shows its message; and a successful response
increments the counter exactly once. -/
theorem generation_failure_no_increment (pid : Nat) (img : String) (u : Int)
    (st : Storage) (ps : List CuratedPrompt) (p : CuratedPrompt)
    (hpid : pid ≠ 0) (himg : img ≠ "") (hq : hasUsesLeft u = true)
    (hfind : ps.find? (fun q => q.id == pid) = some p) :
    (∀ s d, d ≠ "" →
      (handleGenerate (some pid) (some img) u st ps (.httpError s (some d))).alert =
        some ("Generation Failed", d) ∧
      (handleGenerate (some pid) (some img) u st ps (.httpError s (some d))).usageCountAfter
        = u ∧
      (handleGenerate (some pid) (some img) u st ps (.httpError s (some d))).incremented
        = false) ∧
    (∀ s,
      (handleGenerate (some pid) (some img) u st ps (.httpError s none)).alert =
        some ("Generation Failed", "HTTP " ++ natToString s ++ ": Failed to generate image") ∧
      (handleGenerate (some pid) (some img) u st ps (.httpError s none)).usageCountAfter
        = u ∧
      (handleGenerate (some pid) (some img) u st ps (.httpError s none)).incremented
        = false) ∧
    (∀ m,
      (handleGenerate (some pid) (some img) u st ps (.transportError m)).alert =
        some ("Generation Failed", m) ∧
      (handleGenerate (some pid) (some img) u st ps (.transportError m)).usageCountAfter
        = u ∧
      (handleGenerate (some pid) (some img) u st ps (.transportError m)).incremented
        = false) ∧
    (∀ b,
      (handleGenerate (some pid) (some img) u st ps (.success b)).incremented = true ∧
      (handleGenerate (some pid) (some img) u st ps (.success b)).usageCountAfter
        = u + 1) := by
  have hb : truthyNat (some pid) = true := by simp [truthyNat, hpid]
  have hbi : truthyStr (some img) = true := by simp [truthyStr, himg]
  refine ⟨?_, ?_, ?_, ?_⟩
  · intro s d hd
    simp [handleGenerate, hb, hbi, hq, hfind, jsOr, hd]
  · intro s
    simp [handleGenerate, hb, hbi, hq, hfind, jsOr]
  · intro m
    simp [handleGenerate, hb, hbi, hq, hfind]
  · intro b
    simp [handleGenerate, hb, hbi, hq, hfind, incrementUsage_usageCount]

/-- C3 witness: the spec's Scenario B — an HTTP 500 with detail "model
overloaded" shows exactly that message and leaves the counter at 0. -/
theorem generation_failure_no_increment_witness :
    (handleGenerate (some 1) (some "i") 0 .unavailable
        [⟨1, "T", "d", "p", "c"⟩] (.httpError 500 (some "model overloaded"))).alert =
      some ("Generation Failed", "model overloaded") ∧
    (handleGenerate (some 1) (some "i") 0 .unavailable
        [⟨1, "T", "d", "p", "c"⟩] (.httpError 500 (some "model overloaded"))).usageCountAfter
      = 0 ∧
    (handleGenerate (some 1) (some "i") 0 .unavailable
        [⟨1, "T", "d", "p", "c"⟩] (.httpError 500 (some "model overloaded"))).incremented
      = false :=
  (generation_failure_no_increment 1 "i" 0 .unavailable [⟨1, "T", "d", "p", "c"⟩]
    ⟨1, "T", "d", "p", "c"⟩ (by decide) (by decide) (by decide) (by decide)).1
    500 "model overloaded" (by decide)

/-- C4 counterexample: with the stored value "abc" (non-empty, not parsable
as an integer) `loadUsage` yields `NaN`, not 0, refuting the claim that an
unparsable stored value loads as 0. -/
theorem loadUsage_unparsable_cex :
    loadUsage (.available (some ['a', 'b', 'c']) false) = .nan ∧
    JSNumber.nan ≠ JSNumber.int 0 := by
  refine ⟨by decide, by decide⟩

/-- C4 amended: `load()` yields 0 when the key is missing (and, being
total, never raises for a missing key) and also when the stored string is
empty; when the stored string is non-empty, it yields JavaScript
`parseInt` of it — the parsed integer when one parses, but `NaN` (not 0)
when the string is not parsable. -/
theorem loadUsage_missing_key :
    loadUsage .unavailable = .int 0 ∧
    (∀ wf, loadUsage (.available none wf) = .int 0) ∧
    (∀ wf, loadUsage (.available (some []) wf) = .int 0) ∧
    (∀ s wf, s ≠ [] → jsParseInt s = .nan → loadUsage (.available (some s) wf) = .nan) ∧
    (∀ s wf n, s ≠ [] → jsParseInt s = .int n →
      loadUsage (.available (some s) wf) = .int n) := by
  refine ⟨rfl, fun wf => rfl, fun wf => rfl, ?_, ?_⟩
  · intro s wf hs hp
    rw [loadUsage, if_neg (by simp [List.isEmpty_iff, hs]), hp]
  · intro s wf n hs hp
    rw [loadUsage, if_neg (by simp [List.isEmpty_iff, hs]), hp]

/-- C4 amended, witness: the stored string "x" is non-empty and unparsable
and loads as `NaN`. -/
theorem loadUsage_missing_key_witness :
    loadUsage (.available (some ['x']) false) = .nan :=
  loadUsage_missing_key.2.2.2.1 ['x'] false (by decide) (by decide)

/-- C5: `hasUsesLeft()` is true iff `usageCount < limit`; `remaining()`
equals `max(0, limit - usageCount)` and is never negative however far the
counter exceeds the limit; and `hasUsesLeft()` is false exactly when
`remaining()` is 0 (in particular at `usageCount = limit`).  Both are pure
functions of the counter in this embedding. -/
theorem quota_bounds (u : Int) :
    (hasUsesLeft u = true ↔ u < FREE_LIMIT) ∧
    getRemainingUses u = max 0 (FREE_LIMIT - u) ∧
    0 ≤ getRemainingUses u ∧
    (hasUsesLeft u = false ↔ getRemainingUses u = 0) := by
  refine ⟨?_, rfl, ?_, ?_⟩
  · simp [hasUsesLeft, FREE_LIMIT]
  · simp [getRemainingUses]
  · simp only [hasUsesLeft, getRemainingUses, FREE_LIMIT, decide_eq_false_iff_not, not_lt]
    omega

/-- C6: writing `incrementUsage()`'s result to available storage and then
running `load()` in a fresh session yields exactly the value the increment
returned — the decimal print/parse round trip is the identity. -/
theorem usage_roundtrip (u : Int) (kv : Option (List Char)) :
    loadUsage ((incrementUsage u (.available kv false)).storage) =
      .int ((incrementUsage u (.available kv false)).returned) := by
  have hst : (incrementUsage u (.available kv false)).storage =
      .available (some (intToJSChars (u + 1))) false := by
    simp [incrementUsage, setItem]
  rw [hst, incrementUsage_returned, loadUsage,
    if_neg (by simp [List.isEmpty_iff, intToJSChars_ne_nil]),
    jsParseInt_intToJSChars]

/-- C7: when the storage write raises (`setItem` errors), `incrementUsage()`
swallows it — the function still returns normally (it is total), the
in-memory counter advances by 1, the new value is returned, and the
persisted value is left as it was, so the session cap keeps being enforced
from the advanced in-memory counter. -/
theorem increment_write_failure_swallowed (u : Int) (kv : Option (List Char)) :
    setItem (.available kv true) (intToJSChars (u + 1)) = .error "Error saving usage" ∧
    (incrementUsage u (.available kv true)).usageCount = u + 1 ∧
    (incrementUsage u (.available kv true)).returned = u + 1 ∧
    (incrementUsage u (.available kv true)).storage = .available kv true := by
  refine ⟨rfl, rfl, rfl, ?_⟩
  simp [incrementUsage, setItem]

/-- C8: from `signup_prompt`, "Continue with free tier" goes to `generate`
(not `welcome`) and "Create Account" goes to `auth`. -/
theorem signup_prompt_transitions :
    routerStep .signup_prompt .continueFree = .generate ∧
    routerStep .signup_prompt .createAccount = .auth ∧
    routerStep .signup_prompt .continueFree ≠ .welcome := by
  decide

/-- C9: validation precedes the quota check in `handleGenerate`: whenever
the prompt id or the reference image is missing (JavaScript-falsy), the
attempt shows a validation alert titled "Error", performs no network call
and leaves the router on `generate` — for every `usageCount`, including
when `hasUsesLeft()` is false; conversely the transition to
`signup_prompt` happens only when both are present and the quota is
exhausted. -/
theorem validation_before_quota (pid : Option Nat) (img : Option String) (u : Int)
    (st : Storage) (ps : List CuratedPrompt) (f : FetchOutcome) :
    ((truthyNat pid = false ∨ truthyStr img = false) →
      (handleGenerate pid img u st ps f).routedToSignup = false ∧
      (handleGenerate pid img u st ps f).networkCalled = false ∧
      appStateAfterGenerate (handleGenerate pid img u st ps f) = .generate ∧
      ∃ m, (handleGenerate pid img u st ps f).alert = some ("Error", m)) ∧
    ((handleGenerate pid img u st ps f).routedToSignup = true →
      truthyNat pid = true ∧ truthyStr img = true ∧ hasUsesLeft u = false) := by
  constructor
  · rintro (hb | hbi)
    · simp [handleGenerate, hb, appStateAfterGenerate]
    · cases hb : truthyNat pid with
      | false => simp [handleGenerate, hb, appStateAfterGenerate]
      | true => simp [handleGenerate, hb, hbi, appStateAfterGenerate]
  · intro hr
    cases hb : truthyNat pid with
    | false => simp [handleGenerate, hb] at hr
    | true =>
      cases hbi : truthyStr img with
      | false => simp [handleGenerate, hb, hbi] at hr
      | true =>
        cases hq : hasUsesLeft u with
        | false => exact ⟨rfl, rfl, rfl⟩
        | true =>
          cases hfind : ps.find? (fun p => p.id == pid.getD 0) with
          | none => simp [handleGenerate, hb, hbi, hq, hfind] at hr
          | some p => cases f <;> simp [handleGenerate, hb, hbi, hq, hfind] at hr

/-- C9 witness: with no prompt and no image at `usageCount = 100`
(quota exhausted), the attempt stays on `generate` with an "Error" alert
and no network call. -/
theorem validation_before_quota_witness :
    (handleGenerate none none 100 .unavailable [] (.success "")).routedToSignup = false ∧
    (handleGenerate none none 100 .unavailable [] (.success "")).networkCalled = false ∧
    appStateAfterGenerate (handleGenerate none none 100 .unavailable [] (.success "")) =
      .generate ∧
    ∃ m, (handleGenerate none none 100 .unavailable [] (.success "")).alert =
      some ("Error", m) :=
  (validation_before_quota none none 100 .unavailable [] (.success "")).1
    (Or.inl (by decide))

/-- C10: when the persistent key-value store is entirely unavailable,
`loadUsage` leaves the counter at 0 and `incrementUsage()` still advances
the in-memory counter by 1 and returns the new value, leaving storage
untouched; both are total, so neither raises. -/
theorem storage_unavailable_safe (u : Int) :
    loadUsage .unavailable = .int 0 ∧
    (incrementUsage u .unavailable).usageCount = u + 1 ∧
    (incrementUsage u .unavailable).returned = u + 1 ∧
    (incrementUsage u .unavailable).storage = .unavailable :=
  ⟨rfl, rfl, rfl, rfl⟩

end BananaStudio
